import Mathlib

/-!
Verification of the RSS-to-EPUB pipeline of this repository
(`backend/app/services/rss_epub/{fetcher,generator,scheduler}.py` and
`backend/app/models/rss_feed.py`).

Strings are modelled as `List Char` (Python `str`), raw bytes as `List Nat`
(Python `bytes`).  External library calls (HTTP, feedparser, PIL, readability,
the img-tag regular expression) are modelled as fields of explicit environment
structures; everything the repository itself computes is translated directly
from the Python source.
-/

set_option autoImplicit false
set_option maxRecDepth 40000

namespace RssEpub

/-- Abbreviation turning a Lean string literal into the `List Char` model used
throughout this development. -/
def lc (s : String) : List Char := s.data

/-- Python substring test `needle in hay` for `str` values. -/
def listContains (needle : List Char) : List Char → Bool
  | [] => needle.isEmpty
  | c :: cs => needle.isPrefixOf (c :: cs) || listContains needle cs

/-- Fuel-driven worker for `replaceAll`; the fuel is always at least the length
of the scanned list, so the exhaustion branch is never taken on real calls. -/
def replaceAllAux (pat repl : List Char) : Nat → List Char → List Char
  | _, [] => []
  | 0, s => s
  | fuel + 1, c :: cs =>
    if pat.isPrefixOf (c :: cs) then repl ++ replaceAllAux pat repl fuel ((c :: cs).drop pat.length)
    else c :: replaceAllAux pat repl fuel cs

/-- Python `str.replace(pat, repl)`: replace every non-overlapping occurrence,
scanning left to right.  (The empty-pattern corner case, which Python treats
specially, never arises in this code base and is modelled as the identity.) -/
def replaceAll (pat repl s : List Char) : List Char :=
  if pat.isEmpty then s else replaceAllAux pat repl s.length s

/-- Python `dict` assignment `m[k] = v` on an insertion-ordered association
list: overwrite in place if the key exists, else append at the end. -/
def dictSet {α β : Type} [DecidableEq α] (m : List (α × β)) (k : α) (v : β) : List (α × β) :=
  match m with
  | [] => [(k, v)]
  | (k', v') :: rest => if k' = k then (k, v) :: rest else (k', v') :: dictSet rest k v

/-- Python `m.update(new)` on the association-list dictionary model. -/
def dictUpdate {α β : Type} [DecidableEq α] (m new : List (α × β)) : List (α × β) :=
  new.foldl (fun acc kv => dictSet acc kv.1 kv.2) m

/-- Python `enumerate(xs, start)`. -/
def pyEnumerate {α : Type} (start : Nat) : List α → List (Nat × α)
  | [] => []
  | a :: as => (start, a) :: pyEnumerate (start + 1) as

/-- Decimal digit character for a value below ten. -/
def digitChar (n : Nat) : Char := Char.ofNat (48 + n)

/-- Little-endian decimal digits of `n`, produced with explicit fuel so that
the definition is structurally recursive (the fuel is always at least `n`). -/
def natDigitsRev : Nat → Nat → List Char
  | _, 0 => []
  | 0, _ => []
  | fuel + 1, n => digitChar (n % 10) :: natDigitsRev fuel (n / 10)

/-- Decimal rendering of a natural number, as Python `str(n)` produces for a
non-negative `int`. -/
def natStr (n : Nat) : List Char :=
  match n with
  | 0 => ['0']
  | Nat.succ m => (natDigitsRev (Nat.succ m) (Nat.succ m)).reverse

/-- Zero-padded minimum-width decimal, as the Python format spec `{n:0wd}` and
the zero-padding conversions of `strftime` produce. -/
def padW (w n : Nat) : List Char :=
  List.replicate (w - (natStr n).length) '0' ++ natStr n

/-- Characters removed by the first substitution of
`EpubGenerator._sanitize_filename`: the path-illegal set `<>:"/\|?*`. -/
def isIllegalChar (c : Char) : Bool :=
  c == '<' || c == '>' || c == ':' || c == '"' || c == '/' || c == '\\' ||
  c == '|' || c == '?' || c == '*'

/-- Characters matched by `\s` in a Python `str` regular expression
(ASCII whitespace plus the Unicode whitespace code points). -/
def isPyWs (c : Char) : Bool :=
  c == ' ' || c == '\t' || c == '\n' || c == '\r' ||
  c == '\x0b' || c == '\x0c' ||
  c == '\x1c' || c == '\x1d' || c == '\x1e' || c == '\x1f' ||
  c.toNat == 0x85 || c.toNat == 0xa0 || c.toNat == 0x1680 ||
  (0x2000 ≤ c.toNat && c.toNat ≤ 0x200a) ||
  c.toNat == 0x2028 || c.toNat == 0x2029 || c.toNat == 0x202f ||
  c.toNat == 0x205f || c.toNat == 0x3000

/-- Character class `[\s\-]` of the second substitution of
`EpubGenerator._sanitize_filename`. -/
def isWsDash (c : Char) : Bool := isPyWs c || c == '-'

/-- Python `re.sub(r"[\s\-]+", "_", s)`: every maximal run of whitespace or
dash characters becomes a single underscore. -/
def collapseWsDash : List Char → List Char
  | [] => []
  | [c] => if isWsDash c then ['_'] else [c]
  | c :: d :: cs =>
    if isWsDash c then
      if isWsDash d then collapseWsDash (d :: cs)
      else '_' :: collapseWsDash (d :: cs)
    else c :: collapseWsDash (d :: cs)

/-- Python `s.encode("ascii", "ignore").decode("ascii")`: drop every code
point above 127. -/
def asciiOnly (s : List Char) : List Char := s.filter (fun c => c.toNat ≤ 127)

/-- Python `s.strip("_")`: remove every leading and trailing underscore. -/
def stripUnderscores (s : List Char) : List Char :=
  (((s.dropWhile (fun c => c == '_')).reverse).dropWhile (fun c => c == '_')).reverse

/-- Translation of `EpubGenerator._sanitize_filename` (generator.py 258-267):
remove path-illegal characters, collapse whitespace/dash runs to `_`, drop
non-ASCII characters, truncate to 100 characters, strip edge underscores. -/
def sanitizeFilename (name : List Char) : List Char :=
  stripUnderscores
    ((asciiOnly (collapseWsDash (name.filter (fun c => !isIllegalChar c)))).take 100)

/-! ### MD5 (model of `hashlib.md5`) and UTF-8 (model of `str.encode()`) -/

/-- UTF-8 encoding of a single code point, as Python `str.encode()` uses. -/
def utf8Char (c : Char) : List Nat :=
  let n := c.toNat
  if n < 128 then [n]
  else if n < 2048 then [192 + n / 64, 128 + n % 64]
  else if n < 65536 then [224 + n / 4096, 128 + n / 64 % 64, 128 + n % 64]
  else [240 + n / 262144, 128 + n / 4096 % 64, 128 + n / 64 % 64, 128 + n % 64]

/-- UTF-8 byte sequence of a string, Python `s.encode()`. -/
def utf8Bytes (s : List Char) : List Nat := s.flatMap utf8Char

/-- Addition modulo `2^32`. -/
def add32 (a b : Nat) : Nat := (a + b) % 4294967296

/-- Bitwise complement on 32-bit words. -/
def not32 (x : Nat) : Nat := 4294967295 ^^^ x

/-- Left rotation of a 32-bit word. -/
def rotl32 (x s : Nat) : Nat := ((x <<< s) ||| (x >>> (32 - s))) % 4294967296

/-- The 64 sine-derived round constants of MD5 (RFC 1321). -/
def md5K : List Nat :=
  [0xd76aa478, 0xe8c7b756, 0x242070db, 0xc1bdceee,
   0xf57c0faf, 0x4787c62a, 0xa8304613, 0xfd469501,
   0x698098d8, 0x8b44f7af, 0xffff5bb1, 0x895cd7be,
   0x6b901122, 0xfd987193, 0xa679438e, 0x49b40821,
   0xf61e2562, 0xc040b340, 0x265e5a51, 0xe9b6c7aa,
   0xd62f105d, 0x02441453, 0xd8a1e681, 0xe7d3fbc8,
   0x21e1cde6, 0xc33707d6, 0xf4d50d87, 0x455a14ed,
   0xa9e3e905, 0xfcefa3f8, 0x676f02d9, 0x8d2a4c8a,
   0xfffa3942, 0x8771f681, 0x6d9d6122, 0xfde5380c,
   0xa4beea44, 0x4bdecfa9, 0xf6bb4b60, 0xbebfbc70,
   0x289b7ec6, 0xeaa127fa, 0xd4ef3085, 0x04881d05,
   0xd9d4d039, 0xe6db99e5, 0x1fa27cf8, 0xc4ac5665,
   0xf4292244, 0x432aff97, 0xab9423a7, 0xfc93a039,
   0x655b59c3, 0x8f0ccc92, 0xffeff47d, 0x85845dd1,
   0x6fa87e4f, 0xfe2ce6e0, 0xa3014314, 0x4e0811a1,
   0xf7537e82, 0xbd3af235, 0x2ad7d2bb, 0xeb86d391]

/-- The per-round left-rotation amounts of MD5. -/
def md5S : List Nat :=
  [7, 12, 17, 22, 7, 12, 17, 22, 7, 12, 17, 22, 7, 12, 17, 22,
   5, 9, 14, 20, 5, 9, 14, 20, 5, 9, 14, 20, 5, 9, 14, 20,
   4, 11, 16, 23, 4, 11, 16, 23, 4, 11, 16, 23, 4, 11, 16, 23,
   6, 10, 15, 21, 6, 10, 15, 21, 6, 10, 15, 21, 6, 10, 15, 21]

/-- The round function of MD5 for step `i`. -/
def md5F (i b c d : Nat) : Nat :=
  if i < 16 then (b &&& c) ||| (not32 b &&& d)
  else if i < 32 then (d &&& b) ||| (not32 d &&& c)
  else if i < 48 then b ^^^ c ^^^ d
  else c ^^^ (b ||| not32 d)

/-- The message-word index of MD5 for step `i`. -/
def md5G (i : Nat) : Nat :=
  if i < 16 then i
  else if i < 32 then (5 * i + 1) % 16
  else if i < 48 then (3 * i + 5) % 16
  else (7 * i) % 16

/-- Little-endian 32-bit word number `j` of a 64-byte block. -/
def word32At (block : List Nat) (j : Nat) : Nat :=
  block.getD (4 * j) 0 + 256 * block.getD (4 * j + 1) 0 +
  65536 * block.getD (4 * j + 2) 0 + 16777216 * block.getD (4 * j + 3) 0

/-- One of the 64 steps of an MD5 block computation. -/
def md5Step (block : List Nat) (st : Nat × Nat × Nat × Nat) (i : Nat) : Nat × Nat × Nat × Nat :=
  let (a, b, c, d) := st
  let f := add32 (add32 (add32 (md5F i b c d) a) (md5K.getD i 0)) (word32At block (md5G i))
  (d, add32 b (rotl32 f (md5S.getD i 0)), b, c)

/-- Processing of one padded 64-byte block. -/
def md5Block (st : Nat × Nat × Nat × Nat) (block : List Nat) : Nat × Nat × Nat × Nat :=
  let r := (List.range 64).foldl (md5Step block) st
  (add32 st.1 r.1, add32 st.2.1 r.2.1, add32 st.2.2.1 r.2.2.1, add32 st.2.2.2 r.2.2.2)

/-- Little-endian eight-byte rendering of the message bit length. -/
def md5LenBytes (n : Nat) : List Nat :=
  [n % 256, n / 256 % 256, n / 65536 % 256, n / 16777216 % 256,
   n / 4294967296 % 256, n / 1099511627776 % 256,
   n / 281474976710656 % 256, n / 72057594037927936 % 256]

/-- MD5 padding: a `0x80` byte, zeros to 56 mod 64, then the bit length. -/
def md5Pad (msg : List Nat) : List Nat :=
  msg ++ 128 :: List.replicate ((119 - msg.length % 64) % 64) 0 ++ md5LenBytes (8 * msg.length)

/-- Fuel-driven block loop; the fuel is the padded length, an upper bound on
the number of 64-byte blocks. -/
def md5Chunks : Nat → Nat × Nat × Nat × Nat → List Nat → Nat × Nat × Nat × Nat
  | _, st, [] => st
  | 0, st, _ => st
  | fuel + 1, st, bytes => md5Chunks fuel (md5Block st (bytes.take 64)) (bytes.drop 64)

/-- Little-endian four-byte rendering of a 32-bit word. -/
def word32LE (w : Nat) : List Nat := [w % 256, w / 256 % 256, w / 65536 % 256, w / 16777216 % 256]

/-- The sixteen digest bytes of MD5. -/
def md5Digest (msg : List Nat) : List Nat :=
  let padded := md5Pad msg
  let r := md5Chunks padded.length (0x67452301, 0xefcdab89, 0x98badcfe, 0x10325476) padded
  word32LE r.1 ++ word32LE r.2.1 ++ word32LE r.2.2.1 ++ word32LE r.2.2.2

/-- Lowercase hexadecimal digit. -/
def hexChar (n : Nat) : Char := if n < 10 then Char.ofNat (48 + n) else Char.ofNat (87 + n)

/-- Two-character lowercase hexadecimal rendering of one byte. -/
def byteHex (b : Nat) : List Char := [hexChar (b / 16), hexChar (b % 16)]

/-- Python `hashlib.md5(bytes).hexdigest()`. -/
def md5Hex (msg : List Nat) : List Char := (md5Digest msg).flatMap byteHex

/-! ### URL handling (models of `urllib.parse`) -/

/-- Character allowed in a URL scheme after the leading letter. -/
def isSchemeChar (c : Char) : Bool := c.isAlpha || c.isDigit || c == '+' || c == '-' || c == '.'

/-- Whether a URL starts with a `scheme:` part, as `urllib.parse` recognises
(a letter followed by letters, digits, `+`, `-` or `.`, then a colon). -/
def hasScheme (url : List Char) : Bool :=
  let pre := url.takeWhile (fun c => c != ':')
  decide (pre.length < url.length) &&
    (match pre with
     | [] => false
     | c :: rest => c.isAlpha && rest.all isSchemeChar)

/-- Scheme part of a URL (text before the first colon). -/
def schemeOf (url : List Char) : List Char := url.takeWhile (fun c => c != ':')

/-- Text after the first colon of a URL. -/
def dropScheme (url : List Char) : List Char := (url.dropWhile (fun c => c != ':')).drop 1

/-- Scheme plus authority of an absolute URL, e.g. `http://host`. -/
def schemeNetloc (url : List Char) : List Char :=
  if hasScheme url then
    let rest := dropScheme url
    if (lc "//").isPrefixOf rest then
      schemeOf url ++ ':' :: '/' :: '/' :: (rest.drop 2).takeWhile (fun c => c != '/')
    else schemeOf url ++ [':']
  else if (lc "//").isPrefixOf url then
    '/' :: '/' :: (url.drop 2).takeWhile (fun c => c != '/')
  else []

/-- Base URL with its last path segment removed (text up to and including the
final slash). -/
def baseDirOf (url : List Char) : List Char := (url.reverse.dropWhile (fun c => c != '/')).reverse

/-- Model of `urllib.parse.urljoin` restricted to the shapes exercised by the
fetcher: an absolute reference is returned unchanged, a protocol-relative
reference takes the scheme of the base, a root-relative reference takes the
base authority, and any other reference replaces the last path segment of the
base.  RFC 3986 dot-segment normalisation is not modelled. -/
def urljoin (base url : List Char) : List Char :=
  if url.isEmpty then base
  else if hasScheme url then url
  else if (lc "//").isPrefixOf url then schemeOf base ++ ':' :: url
  else if url.headD ' ' == '/' then schemeNetloc base ++ url
  else baseDirOf base ++ url

/-- Path component of a URL, model of `urllib.parse.urlparse(url).path`:
the fragment and the query are cut, the scheme and the authority (present
only after `//`) are removed. -/
def urlPath (url : List Char) : List Char :=
  let s := (url.takeWhile (fun c => c != '#')).takeWhile (fun c => c != '?')
  let s := if hasScheme s then dropScheme s else s
  if (lc "//").isPrefixOf s then (s.drop 2).dropWhile (fun c => c != '/') else s

/-- Lowercasing of a string, Python `str.lower()` (ASCII-relevant part). -/
def lowerStr (s : List Char) : List Char := s.map Char.toLower

/-- Translation of `RssFetcher._get_image_extension` (fetcher.py 305-319):
look for a known image extension inside the lowercased URL path, default to
`.jpg`. -/
def getImageExtension (url : List Char) : List Char :=
  let path := lowerStr (urlPath url)
  if listContains (lc ".png") path then lc ".png"
  else if listContains (lc ".gif") path then lc ".gif"
  else if listContains (lc ".webp") path then lc ".webp"
  else if listContains (lc ".svg") path then lc ".svg"
  else lc ".jpg"

/-- Translation of `RssFetcher._is_image_url` (fetcher.py 321-324). -/
def isImageUrl (url : List Char) : Bool :=
  [lc ".jpg", lc ".jpeg", lc ".png", lc ".gif", lc ".webp", lc ".svg"].any
    (fun e => e.isSuffixOf (lowerStr url))

/-! ### Fetcher (`backend/app/services/rss_epub/fetcher.py`) -/

/-- Python `datetime` restricted to the six fields the fetcher constructs
from `*_parsed[:6]`. -/
structure PyDateTime where
  year : Nat
  month : Nat
  day : Nat
  hour : Nat
  minute : Nat
  second : Nat
deriving DecidableEq

/-- Translation of the `Article` dataclass (fetcher.py 18-27). -/
structure Article where
  title : List Char
  url : List Char
  content : List Char
  author : Option (List Char) := none
  published : Option PyDateTime := none
  summary : Option (List Char) := none
  images : List (List Char × List Nat) := []
deriving DecidableEq

/-- One feedparser entry, holding the fields `_process_entry` reads.  The
`thumbnail` field stands for the result of `_extract_thumbnail(entry)`, whose
priority chain over raw feed metadata is not claim-relevant here; `none`
models a falsy (absent) value throughout. -/
structure Entry where
  title : Option (List Char) := none
  link : Option (List Char) := none
  contentHtml : Option (List Char) := none
  summary : Option (List Char) := none
  thumbnail : Option (List Char) := none
  author : Option (List Char) := none
  authorsFirstName : Option (List Char) := none
  publishedParsed : Option PyDateTime := none
  updatedParsed : Option PyDateTime := none
deriving DecidableEq

/-- An HTTP response as `_download_image` consumes it. -/
structure DlResponse where
  contentType : List Char
  body : List Nat
deriving DecidableEq

/-- A decoded PIL image: the pixel-level content is irrelevant to every claim,
only mode and dimensions drive the recompression control flow. -/
structure PImage where
  mode : List Char
  width : Nat
  height : Nat
deriving DecidableEq

/-- A parsed feed document as `feedparser.parse` returns it. -/
structure ParsedFeed where
  bozo : Bool
  entries : List Entry
deriving DecidableEq

/-- External-world oracle for one fetcher run.  Each field models one library
boundary: `download` is `httpx` GET for images (`none` covers timeouts and
`raise_for_status` failures), `decode` is `PIL.Image.open` (`none` covers any
PIL failure), `encodeJpeg` is `img.save(..., format="JPEG", ...)`,
`fetchPage` is the page GET plus readability `Document(...).summary()`
(`none` covers exceptions), `findImgSrcs` is
`re.findall(r"<img[^>]+src=[\"\x27]([^\"\x27]+)[\"\x27]", content)`, and
`parseFeed` is `feedparser.parse`.  Within one run the oracle is a fixed
function, so repeated calls with the same argument agree. -/
structure FetchEnv where
  download : List Char → Option DlResponse
  decode : List Nat → Option PImage
  encodeJpeg : PImage → List Nat
  fetchPage : List Char → Option (List Char)
  findImgSrcs : List Char → List (List Char)
  parseFeed : List Char → Option ParsedFeed

/-- Constructor parameters of `RssFetcher` (fetcher.py 33-43). -/
structure FetchCfg where
  downloadImages : Bool := true
  maxImageWidth : Nat := 800
  jpegQuality : Nat := 75

/-- Translation of `RssFetcher._fetch_full_article` (fetcher.py 196-211):
the oracle result is returned only when truthy, otherwise `None`. -/
def fetchFullArticle (env : FetchEnv) (url : List Char) : Option (List Char) :=
  match env.fetchPage url with
  | some content => if content.isEmpty then none else some content
  | none => none

/-- Translation of `RssFetcher._compress_image` (fetcher.py 270-303): decode,
normalise the mode to RGB, downscale to the maximum width preserving aspect
ratio, re-encode as JPEG; any failure returns the original bytes unchanged.
The white-background compositing only changes pixels, which `PImage` does not
carry, and the float `int(height * ratio)` is modelled as natural division. -/
def compressImage (env : FetchEnv) (cfg : FetchCfg) (imageData : List Nat) : List Nat :=
  match env.decode imageData with
  | none => imageData
  | some img =>
    let img :=
      if img.mode == lc "RGBA" || img.mode == lc "P" || img.mode == lc "LA" then
        { img with mode := lc "RGB" }
      else if img.mode != lc "RGB" then { img with mode := lc "RGB" }
      else img
    let img :=
      if cfg.maxImageWidth < img.width then
        { img with width := cfg.maxImageWidth,
                   height := img.height * cfg.maxImageWidth / img.width }
      else img
    env.encodeJpeg img

/-- Translation of `RssFetcher._download_image` (fetcher.py 250-268): fetch,
require an image content type or an image-looking URL, reject a body larger
than 5 MB, otherwise compress. -/
def downloadImage (env : FetchEnv) (cfg : FetchCfg) (url : List Char) : Option (List Nat) :=
  match env.download url with
  | none => none
  | some resp =>
    if listContains (lc "image") resp.contentType || isImageUrl url then
      if 5 * 1024 * 1024 < resp.body.length then none
      else some (compressImage env cfg resp.body)
    else none

/-- Local filename assigned to an inline image by `_process_images`
(fetcher.py 231-234): `img_` plus the first twelve hex digits of the MD5 of
the absolute URL plus the detected extension. -/
def imgLocalFilename (absoluteUrl : List Char) : List Char :=
  lc "img_" ++ (md5Hex (utf8Bytes absoluteUrl)).take 12 ++ getImageExtension absoluteUrl

/-- Local filename assigned to a thumbnail by `_process_entry`
(fetcher.py 121-123). -/
def thumbLocalFilename (thumbnailUrl : List Char) : List Char :=
  lc "thumb_" ++ (md5Hex (utf8Bytes thumbnailUrl)).take 12 ++ getImageExtension thumbnailUrl

/-- One iteration of the image loop of `_process_images` (fetcher.py
226-246): absolutise, download; on a truthy result record the bytes under the
content-addressed name and rewrite every occurrence of the matched URL. -/
def processOneImage (env : FetchEnv) (cfg : FetchCfg) (baseUrl : List Char)
    (state : List Char × List (List Char × List Nat)) (imgUrl : List Char) :
    List Char × List (List Char × List Nat) :=
  let absoluteUrl := urljoin baseUrl imgUrl
  let filename := imgLocalFilename absoluteUrl
  match downloadImage env cfg absoluteUrl with
  | some imgData =>
    if imgData.isEmpty then state
    else (replaceAll imgUrl (lc "images/" ++ filename) state.1,
          dictSet state.2 filename imgData)
  | none => state

/-- The loop of `_process_images` over the matched URLs. -/
def processImagesLoop (env : FetchEnv) (cfg : FetchCfg) (baseUrl : List Char) :
    List (List Char) → List Char × List (List Char × List Nat) →
    List Char × List (List Char × List Nat)
  | [], state => state
  | u :: us, state => processImagesLoop env cfg baseUrl us (processOneImage env cfg baseUrl state u)

/-- Translation of `RssFetcher._process_images` (fetcher.py 213-248). -/
def processImages (env : FetchEnv) (cfg : FetchCfg) (content baseUrl : List Char) :
    List Char × List (List Char × List Nat) :=
  processImagesLoop env cfg baseUrl (env.findImgSrcs content) (content, [])

/-- Content selection from the feed entry (fetcher.py 99-104): the inline
content value when the `content` list is present and truthy, else the summary,
else the empty string. -/
def selectFeedContent (e : Entry) : List Char :=
  match e.contentHtml with
  | some c => c
  | none =>
    match e.summary with
    | some s => s
    | none => []

/-- Content resolution (fetcher.py 106-110): fetch the full page when the
feed content is shorter than 500 characters, keeping the short content if
that fetch fails. -/
def resolveContent (env : FetchEnv) (e : Entry) (url : List Char) : List Char :=
  let content := selectFeedContent e
  if content.length < 500 then
    match fetchFullArticle env url with
    | some fullContent => fullContent
    | none => content
  else content

/-- The leading figure markup prepended for a thumbnail (fetcher.py 127). -/
def figureHtml (thumbFilename title : List Char) : List Char :=
  lc "<figure><img src=\"images/" ++ thumbFilename ++ lc "\" alt=\"" ++ title ++
  lc "\"/></figure>\n"

/-- Translation of the thumbnail block of `_process_entry` (fetcher.py
117-128): download the discovered thumbnail, record it in the image map, and
prepend it as a leading figure when neither its local filename nor its URL
occurs as a substring of the current content. -/
def thumbStep (env : FetchEnv) (cfg : FetchCfg) (title : List Char)
    (thumbnailUrl : Option (List Char))
    (state : List Char × List (List Char × List Nat)) :
    List Char × List (List Char × List Nat) :=
  match thumbnailUrl with
  | none => state
  | some turl =>
    if turl.isEmpty || !cfg.downloadImages then state
    else
      match downloadImage env cfg turl with
      | none => state
      | some thumbData =>
        if thumbData.isEmpty then state
        else
          let thumbFilename := thumbLocalFilename turl
          let images := dictSet state.2 thumbFilename thumbData
          let content :=
            if !listContains thumbFilename state.1 && !listContains turl state.1 then
              figureHtml thumbFilename title ++ state.1
            else state.1
          (content, images)

/-- Translation of `RssFetcher._process_entry` (fetcher.py 88-156). -/
def processEntry (env : FetchEnv) (cfg : FetchCfg) (e : Entry) : Option Article :=
  let title := e.title.getD (lc "Untitled")
  let url := e.link.getD []
  if url.isEmpty then none
  else
    let content := resolveContent env e url
    let state :=
      if cfg.downloadImages && !content.isEmpty then processImages env cfg content url
      else (content, [])
    let state := thumbStep env cfg title e.thumbnail state
    let published :=
      match e.publishedParsed with
      | some p => some p
      | none => e.updatedParsed
    let author :=
      if (e.author.getD []).isEmpty then
        match e.authorsFirstName with
        | some n => some n
        | none => e.author
      else e.author
    let summary :=
      match e.summary with
      | some s => if s.isEmpty then none else some (s.take 500)
      | none => none
    some { title := title, url := url, content := state.1, author := author,
           published := published, summary := summary, images := state.2 }

/-- Python slice `l[:n]` for a possibly negative bound. -/
def pySliceTo {α : Type} (l : List α) (n : Int) : List α :=
  if 0 ≤ n then l.take n.toNat else l.take (l.length - (-n).toNat)

/-- Translation of `RssFetcher.fetch_feed` (fetcher.py 52-86): parse, return
an empty list for a bozo document without entries, process the first
`max_articles` entries, skipping the ones that yield no article. -/
def fetchFeed (env : FetchEnv) (cfg : FetchCfg) (feedUrl : List Char) (maxArticles : Int) :
    List Article :=
  match env.parseFeed feedUrl with
  | none => []
  | some feed =>
    if feed.bozo && feed.entries.isEmpty then []
    else (pySliceTo feed.entries maxArticles).filterMap (processEntry env cfg)

/-! ### Generator (`backend/app/services/rss_epub/generator.py`) -/

/-- Python `datetime.date`. -/
structure PyDate where
  year : Nat
  month : Nat
  day : Nat
deriving DecidableEq

/-- Python `strftime("%Y%m%d")` on a date. -/
def fmtYMD (d : PyDate) : List Char := padW 4 d.year ++ padW 2 d.month ++ padW 2 d.day

/-- Python `strftime("%d/%m/%Y")` on a date. -/
def fmtDMY (d : PyDate) : List Char :=
  padW 2 d.day ++ '/' :: padW 2 d.month ++ '/' :: padW 4 d.year

/-- Python `date.isoformat()`. -/
def isoDate (d : PyDate) : List Char :=
  padW 4 d.year ++ '-' :: padW 2 d.month ++ '-' :: padW 2 d.day

/-- Python `strftime("%d/%m/%Y %H:%M")` on a datetime. -/
def fmtDateTimeDMYHM (t : PyDateTime) : List Char :=
  padW 2 t.day ++ '/' :: padW 2 t.month ++ '/' :: padW 4 t.year ++
  ' ' :: padW 2 t.hour ++ ':' :: padW 2 t.minute

/-- Python `os.path.join` for POSIX paths, two arguments. -/
def osPathJoin (a b : List Char) : List Char :=
  if b.headD ' ' == '/' then b
  else if a.isEmpty then b
  else if a.getLastD ' ' == '/' then a ++ b
  else a ++ '/' :: b

/-- Python `os.path.basename` for POSIX paths. -/
def pyBasename (p : List Char) : List Char := (p.reverse.takeWhile (fun c => c != '/')).reverse

/-- One chapter of the assembled book (an `epub.EpubHtml` item). -/
structure EpubChapter where
  title : List Char
  fileName : List Char
  content : List Char
deriving DecidableEq

/-- The assembled book, with the fields `EpubGenerator.generate` sets.  The
static stylesheet item and the navigation items, whose content is a fixed
constant, are not modelled. -/
structure EpubBook where
  identifier : List Char
  title : List Char
  language : List Char
  author : List Char
  metadataDate : List Char
  cover : Option (List Nat)
  images : List (List Char × List Nat)
  chapters : List EpubChapter
deriving DecidableEq

/-- Environment of one generator run: the output directory of the
`EpubGenerator` constructor, a flag modelling an I/O exception caught by the
`try/except` of `generate` (the write is the modelled failure point), and an
oracle for the `re.sub` chain that removes `html`/`body`/`head` tags from a
chapter body (generator.py 140-145). -/
structure GenEnv where
  outputDir : List Char
  writeFails : Bool
  cleanHtml : List Char → List Char

/-- Outcome of one `generate` call: the returned value, the files written to
disk, and the assembled in-memory book (when assembly was reached). -/
structure GenOutcome where
  result : Option (List Char)
  written : List (List Char)
  book : Option EpubBook

/-- Translation of `EpubGenerator._escape_html` (generator.py 172-178). -/
def escapeHtml (text : List Char) : List Char :=
  replaceAll (lc "\"") (lc "&quot;")
    (replaceAll (lc ">") (lc "&gt;")
      (replaceAll (lc "<") (lc "&lt;")
        (replaceAll (lc "&") (lc "&amp;") text)))

/-- Translation of `EpubGenerator._create_chapter` (generator.py 126-170) for
the enumerated pair `(index, article)`. -/
def createChapter (genv : GenEnv) (p : Nat × Article) : EpubChapter :=
  let article := p.2
  let publishedStr :=
    match article.published with
    | some t => lc "<p class=\"date\">" ++ fmtDateTimeDMYHM t ++ lc "</p>"
    | none => []
  let authorStr :=
    match article.author with
    | some a => if a.isEmpty then [] else lc "<p class=\"author\">Tác giả: " ++ a ++ lc "</p>"
    | none => []
  let sourceStr :=
    lc "<p class=\"source\"><a href=\"" ++ article.url ++ lc "\">Nguồn gốc</a></p>"
  let content := genv.cleanHtml article.content
  let htmlContent :=
    lc "<html xmlns=\"http://www.w3.org/1999/xhtml\">\n<head>\n    <title>" ++
    escapeHtml article.title ++
    lc "</title>\n    <link rel=\"stylesheet\" type=\"text/css\" href=\"style/nav.css\"/>\n</head>\n<body>\n    <h1>" ++
    escapeHtml article.title ++ lc "</h1>\n    " ++ publishedStr ++ lc "\n    " ++
    authorStr ++ lc "\n    <div class=\"content\">\n        " ++ content ++
    lc "\n    </div>\n    " ++ sourceStr ++ lc "\n</body>\n</html>"
  { title := article.title,
    fileName := lc "chapter_" ++ padW 3 p.1 ++ lc ".xhtml",
    content := htmlContent }

/-- Translation of `EpubGenerator.generate` (generator.py 20-124): the empty
article list yields no file and no book; otherwise the book is assembled (all
image maps united, one chapter per article in order) and written to
`sanitize(title)_YYYYMMDD.epub` inside the output directory.  An I/O failure
(`genv.writeFails`) makes the call return `None`. -/
def generate (genv : GenEnv) (today : PyDate) (articles : List Article)
    (title : List Char) (author : List Char) (language : List Char)
    (coverImage : Option (List Nat)) : GenOutcome :=
  match articles with
  | [] => { result := none, written := [], book := none }
  | _ :: _ =>
    let identifier := lc "rss-" ++ sanitizeFilename title ++ '-' :: isoDate today
    let allImages := articles.foldl (fun acc a => dictUpdate acc a.images) []
    let chapters := (pyEnumerate 1 articles).map (createChapter genv)
    let book : EpubBook :=
      { identifier := identifier, title := title, language := language,
        author := author, metadataDate := isoDate today, cover := coverImage,
        images := allImages, chapters := chapters }
    let filename := sanitizeFilename title ++ '_' :: fmtYMD today ++ lc ".epub"
    let filepath := osPathJoin genv.outputDir filename
    { result := if genv.writeFails then none else some filepath,
      written := if genv.writeFails then [] else [filepath],
      book := some book }

/-! ### Scheduler (`backend/app/services/rss_epub/scheduler.py` and the
`rss_feed` model) -/

/-- Translation of the `RssFeed` row (models/rss_feed.py 7-18); the timestamp
columns are not claim-relevant. -/
structure Feed where
  id : Int
  name : List Char
  url : List Char
  category : Option (List Char)
  maxArticles : Option Int
  enabled : Bool
deriving DecidableEq

/-- Translation of the `RssGeneratedBook` row (models/rss_feed.py 21-34):
feed_id, title, filename, file_path, file_size, article_count,
generation_date, calibre_book_id; the `id` primary key and the `created_at`
server default are not claim-relevant.  The model declares no MOBI columns,
and no alembic migration adds any. -/
structure Row where
  feedId : Int
  title : List Char
  filename : List Char
  filePath : List Char
  fileSize : Option Nat
  articleCount : Nat
  generationDate : PyDate
  calibreBookId : Option Int
deriving DecidableEq

/-- External boundary of one scheduler run: `fetch` is
`self.fetcher.fetch_feed`, `convertToMobi` is `_convert_to_mobi` (ebook-convert
subprocess), `fileExists`/`fileSize` are `os.path` calls, `addToCalibre` is
`_add_to_calibre` (calibredb subprocess), and `today` is `date.today()`. -/
structure SchedEnv where
  fetch : List Char → Int → List Article
  convertToMobi : List Char → Option (List Char)
  fileExists : List Char → Bool
  fileSize : List Char → Nat
  addToCalibre : List Char → Option (List Char) → Option Int
  today : PyDate

/-- Python `x or d` for an optional integer: `None` and `0` are falsy. -/
def pyOr (x : Option Int) (d : Int) : Int :=
  match x with
  | none => d
  | some n => if n = 0 then d else n

/-- The generated-book title of `generate_feed` (scheduler.py 103). -/
def feedTitle (feed : Feed) (today : PyDate) : List Char :=
  feed.name ++ lc " - " ++ fmtDMY today

/-- The column attributes the `RssGeneratedBook` model declares
(models/rss_feed.py 25-34). -/
def rssGeneratedBookColumns : List (List Char) :=
  [lc "id", lc "feed_id", lc "title", lc "filename", lc "file_path",
   lc "file_size", lc "article_count", lc "generation_date",
   lc "calibre_book_id", lc "created_at"]

/-- The keyword arguments `generate_feed` passes to `RssGeneratedBook(...)`
(scheduler.py 132-143). -/
def schedulerRowKwargs : List (List Char) :=
  [lc "feed_id", lc "title", lc "filename", lc "file_path", lc "file_size",
   lc "mobi_filename", lc "mobi_file_path", lc "mobi_file_size",
   lc "article_count", lc "generation_date"]

/-- Model of the SQLAlchemy declarative `__init__`: a keyword argument that is
not a declared attribute of the model class raises `TypeError` before any
instance exists, regardless of the value passed. -/
def declarativeInitRaises (kwargs columns : List (List Char)) : Bool :=
  kwargs.any (fun k => !(columns.contains k))

/-- Translation of `RssScheduler.generate_feed` (scheduler.py 81-154) over an
explicit registry state (the list of committed `RssGeneratedBook` rows).  The
first component is the Python outcome: `Except.ok` with the returned value,
or `Except.error` with the name of an uncaught exception.  Fetch with the
coalesced cap; return `None` untouched on an empty result; otherwise
generate, convert to MOBI, issue the delete for rows carrying the same
filename, and construct `RssGeneratedBook(...)`.  That construction
(scheduler.py 132-143) passes the MOBI keyword arguments, which the model
class does not declare, so the declarative constructor raises `TypeError`
there: `db.add`/`db.commit` are never reached, the uncommitted delete rolls
back with the session, and the committed registry is unchanged. -/
def generateFeed (env : SchedEnv) (genv : GenEnv) (feed : Feed) (st : List Row) :
    Except (List Char) (Option (List Char)) × List Row :=
  let articles := env.fetch feed.url (pyOr feed.maxArticles 20)
  match articles with
  | [] => (Except.ok none, st)
  | _ :: _ =>
    let title := feedTitle feed env.today
    let outcome := generate genv env.today articles title feed.name (lc "vi") none
    match outcome.result with
    | none => (Except.ok none, st)
    | some filepath =>
      let filename := pyBasename filepath
      let fileSize := env.fileSize filepath
      let mobiPath := env.convertToMobi filepath
      let _mobiMeta :=
        match mobiPath with
        | some mp => if env.fileExists mp then (some (pyBasename mp), some (env.fileSize mp))
                     else (none, none)
        | none => (none, none)
      let stagedDelete := st.filter (fun r => r.filename ≠ filename)
      if declarativeInitRaises schedulerRowKwargs rssGeneratedBookColumns then
        (Except.error (lc "TypeError"), st)
      else
        let row : Row :=
          { feedId := feed.id, title := title, filename := filename,
            filePath := filepath, fileSize := some fileSize,
            articleCount := articles.length, generationDate := env.today,
            calibreBookId := env.addToCalibre filepath feed.category }
        (Except.ok (some filepath), stagedDelete ++ [row])

/-! ### Concrete fixtures used by witnesses and counterexamples -/

/-- A minimal concrete article. -/
def fixArticle : Article :=
  { title := lc "A", url := lc "http://a.com/1", content := lc "<p>x</p>" }

/-- A concrete feed configuration with a null per-feed cap. -/
def fixFeed : Feed :=
  { id := 1, name := lc "VnExpress", url := lc "http://feed.example/rss",
    category := none, maxArticles := none, enabled := true }

/-- A concrete generator environment whose write succeeds. -/
def fixGenv : GenEnv :=
  { outputDir := lc "/data/rss-epubs", writeFails := false, cleanHtml := id }

/-- A scheduler environment whose fetch yields no articles. -/
def schedEnvEmpty : SchedEnv :=
  { fetch := fun _ _ => [], convertToMobi := fun _ => none, fileExists := fun _ => false,
    fileSize := fun _ => 0, addToCalibre := fun _ _ => none, today := ⟨2026, 10, 12⟩ }

/-- A scheduler environment whose fetch yields one article, parameterised by
the current date. -/
def schedEnvOne (d : PyDate) : SchedEnv :=
  { fetch := fun _ _ => [fixArticle], convertToMobi := fun _ => none,
    fileExists := fun _ => false, fileSize := fun _ => 100, addToCalibre := fun _ _ => none,
    today := d }

/-- A fetch environment serving one small PNG at a fixed URL; the PIL decode
oracle always fails, so downloaded bytes pass through compression unchanged. -/
def fixImgEnv : FetchEnv :=
  { download := fun u =>
      if u = lc "http://a.com/p.png" then
        some { contentType := lc "image/png", body := [1, 2, 3] }
      else none,
    decode := fun _ => none,
    encodeJpeg := fun _ => [],
    fetchPage := fun _ => none,
    findImgSrcs := fun _ => [],
    parseFeed := fun _ => none }

/-- A fetch environment whose single URL serves a six-megabyte body. -/
def bigImgEnv : FetchEnv :=
  { download := fun u =>
      if u = lc "http://a.com/big.jpg" then
        some { contentType := lc "image/jpeg", body := List.replicate 6291456 0 }
      else none,
    decode := fun _ => none,
    encodeJpeg := fun _ => [],
    fetchPage := fun _ => none,
    findImgSrcs := fun _ => [],
    parseFeed := fun _ => none }

/-- A fetch environment serving a small SVG whose PIL decode fails. -/
def svgImgEnv : FetchEnv :=
  { download := fun u =>
      if u = lc "http://a.com/pic.svg" then
        some { contentType := lc "image/svg+xml", body := [60, 115, 118, 103, 62] }
      else none,
    decode := fun _ => none,
    encodeJpeg := fun _ => [],
    fetchPage := fun _ => none,
    findImgSrcs := fun _ => [],
    parseFeed := fun _ => none }

/-- An entry with 14 characters of feed content and an unreachable page. -/
def shortEntry : Entry :=
  { title := some (lc "T"), link := some (lc "http://a.com/art"),
    contentHtml := some (lc "<p>short</p>") }

/-- A fetch environment where every page fetch fails. -/
def deadPageEnv : FetchEnv :=
  { download := fun _ => none, decode := fun _ => none, encodeJpeg := fun _ => [],
    fetchPage := fun _ => none, findImgSrcs := fun _ => [], parseFeed := fun _ => none }

/-- The thumbnail URL of the C6 counterexample, also referenced inline. -/
def c6Url : List Char := lc "http://a.com/p.png"

/-- The feed content of the C6 counterexample: one inline image whose source
URL equals the discovered thumbnail URL. -/
def c6Content : List Char := lc "<img src=\"http://a.com/p.png\"/>"

/-- The C6 counterexample entry. -/
def c6Entry : Entry :=
  { title := some (lc "T"), link := some (lc "http://a.com/art"),
    contentHtml := some c6Content, thumbnail := some c6Url }

/-- The C6 counterexample environment: the image URL serves three bytes that
PIL cannot decode, every page fetch fails, and the img-src scan of the feed
content finds exactly its one inline URL. -/
def c6Env : FetchEnv :=
  { download := fun u =>
      if u = c6Url then some { contentType := lc "image/png", body := [1, 2, 3] } else none,
    decode := fun _ => none,
    encodeJpeg := fun _ => [],
    fetchPage := fun _ => none,
    findImgSrcs := fun c => if c = c6Content then [c6Url] else [],
    parseFeed := fun _ => none }

/-! ### C1 — zero articles produce nothing and touch nothing -/

/-- C1: for every feed whose fetch yields zero articles, `generate_feed`
returns `None` and leaves the registry completely unchanged; likewise
`EpubGenerator.generate` on an empty article list returns `None` and writes
no file. -/
theorem generateFeed_empty_fetch_unchanged
    (env : SchedEnv) (genv : GenEnv) (feed : Feed) (st : List Row)
    (h : env.fetch feed.url (pyOr feed.maxArticles 20) = []) :
    generateFeed env genv feed st = (Except.ok none, st) ∧
    ∀ (today : PyDate) (title author language : List Char) (cover : Option (List Nat)),
      (generate genv today [] title author language cover).result = none ∧
      (generate genv today [] title author language cover).written = [] := by
  refine ⟨?_, fun today title author language cover => ⟨rfl, rfl⟩⟩
  simp only [generateFeed, h]

/-- Witness for C1 at a concrete empty-fetch environment. -/
theorem generateFeed_empty_fetch_unchanged_witness :
    schedEnvEmpty.fetch fixFeed.url (pyOr fixFeed.maxArticles 20) = [] ∧
    generateFeed schedEnvEmpty fixGenv fixFeed [] = (Except.ok none, []) := by
  refine ⟨rfl, ?_⟩
  exact (generateFeed_empty_fetch_unchanged schedEnvEmpty fixGenv fixFeed [] rfl).1

/-! ### C9 — falsy per-feed caps are coalesced to 20 -/

/-- C9: a `max_articles` of `0` or null is coalesced to the default cap 20
before the fetcher is called (so a zero cap cannot produce a zero-article
fetch, which a literal cap of `0` would: the fetcher slices `entries[:0]`),
while a positive configured cap is passed through unchanged. -/
theorem maxArticles_falsy_coalesced_to_20
    (feed : Feed) (h : feed.maxArticles = none ∨ feed.maxArticles = some 0)
    (n : Int) (hn : 0 < n) :
    pyOr feed.maxArticles 20 = 20 ∧
    (∀ (env : SchedEnv) (genv : GenEnv) (st : List Row),
      generateFeed env genv feed st =
        generateFeed env genv { feed with maxArticles := some 20 } st) ∧
    pyOr (some n) 20 = n ∧
    (∀ (fenv : FetchEnv) (fcfg : FetchCfg) (url : List Char), fetchFeed fenv fcfg url 0 = []) := by
  have h20 : pyOr feed.maxArticles 20 = 20 := by
    rcases h with h | h <;> simp [pyOr, h]
  refine ⟨h20, ?_, ?_, ?_⟩
  · intro env genv st
    simp only [generateFeed, feedTitle, h20]
    rfl
  · simp [pyOr, hn.ne.symm]
  · intro fenv fcfg url
    simp only [fetchFeed]
    match fenv.parseFeed url with
    | none => rfl
    | some feed =>
      cases hb : feed.bozo && feed.entries.isEmpty <;>
        simp [pySliceTo, hb]

/-- Witness for C9 at the concrete null-cap feed and a cap of 5. -/
theorem maxArticles_falsy_coalesced_to_20_witness :
    (fixFeed.maxArticles = none ∨ fixFeed.maxArticles = some 0) ∧ (0 : Int) < 5 ∧
    pyOr fixFeed.maxArticles 20 = 20 ∧ pyOr (some 5) 20 = 5 := by
  have h := maxArticles_falsy_coalesced_to_20 fixFeed (Or.inl rfl) 5 (by decide)
  exact ⟨Or.inl rfl, by decide, h.1, h.2.2.1⟩

/-! ### C4 — chapter filenames are a zero-padded sequence in input order -/

/-- Helper for C4: the chapter list built from `enumerate(articles, start)`
carries the filenames `chapter_<padded index>.xhtml` in order. -/
theorem pyEnumerate_chapter_fileNames (genv : GenEnv) :
    ∀ (articles : List Article) (start : Nat),
      ((pyEnumerate start articles).map (createChapter genv)).map EpubChapter.fileName =
        (List.range' start articles.length).map
          (fun i => lc "chapter_" ++ padW 3 i ++ lc ".xhtml")
  | [], _ => rfl
  | _ :: as, start => by
    simp only [pyEnumerate, List.map_cons, List.length_cons, List.range'_succ,
      List.cons.injEq]
    exact ⟨rfl, pyEnumerate_chapter_fileNames genv as (start + 1)⟩

/-- C4: `generate` emits one chapter per article, in input order, named
`chapter_` plus the 1-based index zero-padded to three digits plus `.xhtml`;
the name list depends only on the number of articles, never on their titles. -/
theorem chapter_filenames_sequential
    (genv : GenEnv) (today : PyDate) (articles : List Article)
    (title author language : List Char) (cover : Option (List Nat)) :
    (generate genv today articles title author language cover).book.map
        (fun b => b.chapters.map EpubChapter.fileName) =
      match articles with
      | [] => none
      | _ :: _ => some ((List.range articles.length).map
          (fun i => lc "chapter_" ++ padW 3 (i + 1) ++ lc ".xhtml")) := by
  match articles with
  | [] => rfl
  | a :: as =>
    show some (((pyEnumerate 1 (a :: as)).map (createChapter genv)).map EpubChapter.fileName) =
      some ((List.range (a :: as).length).map
        (fun i => lc "chapter_" ++ padW 3 (i + 1) ++ lc ".xhtml"))
    rw [pyEnumerate_chapter_fileNames genv (a :: as) 1]
    refine congrArg some ?_
    rw [List.range'_eq_map_range, List.map_map]
    apply List.map_congr_left
    intro i _
    simp only [Function.comp_apply]
    rw [Nat.add_comm 1 i]

/-! ### C5 — inline image filenames are content-addressed by absolute URL -/

/-- C5: the local filename of a downloaded inline image is the pure function
`img_` + MD5-prefix + detected extension of the absolute source URL, so two
inline references (from any two articles of the same run) to the same
absolute URL resolve to the same local filename, mapped to the same bytes. -/
theorem image_filename_content_addressed
    (env : FetchEnv) (cfg : FetchCfg) (base1 u1 base2 u2 c1 c2 : List Char) (d : List Nat)
    (hurl : urljoin base1 u1 = urljoin base2 u2)
    (hdl : downloadImage env cfg (urljoin base1 u1) = some d)
    (hne : d ≠ []) :
    ∃ k, k = imgLocalFilename (urljoin base1 u1) ∧
      processImagesLoop env cfg base1 [u1] (c1, []) =
        (replaceAll u1 (lc "images/" ++ k) c1, [(k, d)]) ∧
      processImagesLoop env cfg base2 [u2] (c2, []) =
        (replaceAll u2 (lc "images/" ++ k) c2, [(k, d)]) := by
  have hne' : d.isEmpty = false := by
    cases d with
    | nil => exact absurd rfl hne
    | cons x xs => rfl
  refine ⟨imgLocalFilename (urljoin base1 u1), rfl, ?_, ?_⟩
  · simp only [processImagesLoop, processOneImage, hdl, hne', Bool.false_eq_true, if_false,
      dictSet]
  · simp only [processImagesLoop, processOneImage, ← hurl, hdl, hne', Bool.false_eq_true,
      if_false, dictSet]

/-- Witness for C5: two relative references from different base pages that
absolutise to the same URL. -/
theorem image_filename_content_addressed_witness :
    urljoin (lc "http://a.com/one/page") (lc "/p.png") = urljoin (lc "http://a.com/two/") (lc "http://a.com/p.png") ∧
    ∃ k, k = imgLocalFilename (lc "http://a.com/p.png") ∧
      processImagesLoop fixImgEnv {} (lc "http://a.com/one/page") [lc "/p.png"]
        (lc "<img src=\"/p.png\"/>", []) =
        (replaceAll (lc "/p.png") (lc "images/" ++ k) (lc "<img src=\"/p.png\"/>"), [(k, [1, 2, 3])]) ∧
      processImagesLoop fixImgEnv {} (lc "http://a.com/two/") [lc "http://a.com/p.png"]
        (lc "x", []) =
        (replaceAll (lc "http://a.com/p.png") (lc "images/" ++ k) (lc "x"), [(k, [1, 2, 3])]) := by
  refine ⟨by decide, ?_⟩
  exact image_filename_content_addressed fixImgEnv {} (lc "http://a.com/one/page")
    (lc "/p.png") (lc "http://a.com/two/") (lc "http://a.com/p.png") _ _ [1, 2, 3]
    (by decide) (by decide) (by decide)

/-! ### C7 — an oversized image download is skipped without any effect -/

/-- C7: when the download of an inline image returns more than 5 MB,
`_download_image` rejects it (`None`), and the image loop behaves exactly as
if that matched URL were absent: nothing enters the image map and the content
(in particular that `<img>` tag) is left untouched; the remaining matches are
processed normally. -/
theorem oversized_image_skipped
    (env : FetchEnv) (cfg : FetchCfg) (base u : List Char) (resp : DlResponse)
    (pre post : List (List Char)) (state : List Char × List (List Char × List Nat))
    (hresp : env.download (urljoin base u) = some resp)
    (hsize : 5 * 1024 * 1024 < resp.body.length) :
    downloadImage env cfg (urljoin base u) = none ∧
    processImagesLoop env cfg base (pre ++ u :: post) state =
      processImagesLoop env cfg base (pre ++ post) state := by
  have hdl : downloadImage env cfg (urljoin base u) = none := by
    simp only [downloadImage, hresp, hsize, if_true]
    split <;> rfl
  refine ⟨hdl, ?_⟩
  induction pre generalizing state with
  | nil =>
    simp only [List.nil_append, processImagesLoop, processOneImage, hdl]
  | cons v vs ih =>
    simp only [List.cons_append, processImagesLoop]
    exact ih _

/-- Witness for C7 at a concrete 6 MB response. -/
theorem oversized_image_skipped_witness :
    bigImgEnv.download (urljoin (lc "http://a.com/") (lc "big.jpg")) =
      some { contentType := lc "image/jpeg", body := List.replicate 6291456 0 } ∧
    downloadImage bigImgEnv {} (urljoin (lc "http://a.com/") (lc "big.jpg")) = none ∧
    processImagesLoop bigImgEnv {} (lc "http://a.com/") [lc "big.jpg"]
        (lc "<img src=\"big.jpg\"/>", []) =
      processImagesLoop bigImgEnv {} (lc "http://a.com/") []
        (lc "<img src=\"big.jpg\"/>", []) := by
  have h := oversized_image_skipped bigImgEnv {} (lc "http://a.com/") (lc "big.jpg")
    { contentType := lc "image/jpeg", body := List.replicate 6291456 0 } [] []
    (lc "<img src=\"big.jpg\"/>", []) (by rfl)
    (by rw [List.length_replicate]; decide)
  exact ⟨rfl, h.1, h.2⟩

/-! ### C10 — a failed recompression falls back to the original bytes -/

/-- C10: when PIL cannot decode a downloaded image (for example an SVG),
`_compress_image` returns the original bytes unchanged, `_download_image`
passes them on, and the image loop embeds them in the image map under the
same content-addressed filename, bypassing the RGB/resize/re-encode
pipeline. -/
theorem compress_failure_embeds_original
    (env : FetchEnv) (cfg : FetchCfg) (base u : List Char) (resp : DlResponse)
    (state : List Char × List (List Char × List Nat))
    (hresp : env.download (urljoin base u) = some resp)
    (htype : (listContains (lc "image") resp.contentType || isImageUrl (urljoin base u)) = true)
    (hsize : resp.body.length ≤ 5 * 1024 * 1024)
    (hdec : env.decode resp.body = none)
    (hne : resp.body ≠ []) :
    compressImage env cfg resp.body = resp.body ∧
    downloadImage env cfg (urljoin base u) = some resp.body ∧
    processImagesLoop env cfg base [u] state =
      (replaceAll u (lc "images/" ++ imgLocalFilename (urljoin base u)) state.1,
       dictSet state.2 (imgLocalFilename (urljoin base u)) resp.body) := by
  have hcomp : compressImage env cfg resp.body = resp.body := by
    simp only [compressImage, hdec]
  have hdl : downloadImage env cfg (urljoin base u) = some resp.body := by
    simp only [downloadImage, hresp, htype, if_true]
    rw [if_neg (Nat.not_lt.mpr hsize), hcomp]
  have hne' : resp.body.isEmpty = false := by
    cases h : resp.body with
    | nil => exact absurd h hne
    | cons x xs => rfl
  refine ⟨hcomp, hdl, ?_⟩
  simp only [processImagesLoop, processOneImage, hdl, hne', Bool.false_eq_true, if_false]

/-- Witness for C10 at a concrete SVG response. -/
theorem compress_failure_embeds_original_witness :
    svgImgEnv.decode [60, 115, 118, 103, 62] = none ∧
    compressImage svgImgEnv {} [60, 115, 118, 103, 62] = [60, 115, 118, 103, 62] ∧
    downloadImage svgImgEnv {} (urljoin (lc "http://a.com/") (lc "pic.svg")) =
      some [60, 115, 118, 103, 62] := by
  have h := compress_failure_embeds_original svgImgEnv {} (lc "http://a.com/")
    (lc "pic.svg") { contentType := lc "image/svg+xml", body := [60, 115, 118, 103, 62] }
    (lc "x", []) (by rfl) (by decide) (by decide) rfl (by decide)
  exact ⟨rfl, h.1, h.2.1⟩

/-! ### C8 — a failed full-page fetch keeps the short feed content -/

/-- C8: for an entry whose feed-provided content is shorter than 500
characters and whose full-page fetch fails, the resulting article keeps the
original short content unchanged (stated before image rewriting, with image
downloading off), and the entry is not discarded. -/
theorem short_content_kept_on_fetch_failure
    (env : FetchEnv) (cfg : FetchCfg) (e : Entry)
    (hlen : (selectFeedContent e).length < 500)
    (hfail : env.fetchPage (e.link.getD []) = none)
    (hlink : (e.link.getD []).isEmpty = false)
    (hcfg : cfg.downloadImages = false) :
    resolveContent env e (e.link.getD []) = selectFeedContent e ∧
    (processEntry env cfg e).map Article.content = some (selectFeedContent e) := by
  have hres : resolveContent env e (e.link.getD []) = selectFeedContent e := by
    simp only [resolveContent, fetchFullArticle, hfail, if_pos hlen]
  refine ⟨hres, ?_⟩
  simp only [processEntry, hlink, Bool.false_eq_true, if_false, hcfg, Bool.false_and,
    hres]
  cases e.thumbnail with
  | none => rfl
  | some turl =>
    simp only [thumbStep, hcfg, Bool.not_false, Bool.or_true, if_true]
    rfl

/-- Witness for C8 at the concrete short entry. -/
theorem short_content_kept_on_fetch_failure_witness :
    (selectFeedContent shortEntry).length < 500 ∧
    deadPageEnv.fetchPage (shortEntry.link.getD []) = none ∧
    (processEntry deadPageEnv { downloadImages := false } shortEntry).map Article.content =
      some (lc "<p>short</p>") := by
  refine ⟨by decide, rfl, ?_⟩
  exact (short_content_kept_on_fetch_failure deadPageEnv { downloadImages := false }
    shortEntry (by decide) rfl (by decide) rfl).2

/-! ### C6 — the thumbnail prepend guard is a substring check, not an
equivalent-image check -/

/-- Counterexample to C6 as stated: the entry has a discovered thumbnail whose
source URL is identical to an inline image already embedded (under the local
name `img_122fafe13a71.png`), yet the thumbnail is still prepended as a
leading figure, because the guard checks the post-rewrite content for the
`thumb_` filename and the raw URL, both of which the inline rewrite removed. -/
theorem thumbnail_duplicate_prepended_counterexample :
    (processEntry c6Env {} c6Entry).map Article.content =
      some (lc "<figure><img src=\"images/thumb_122fafe13a71.png\" alt=\"T\"/></figure>\n<img src=\"images/img_122fafe13a71.png\"/>") ∧
    (processEntry c6Env {} c6Entry).any (fun a =>
      (lc "<figure><img src=\"images/thumb_").isPrefixOf a.content &&
      listContains (lc "images/img_122fafe13a71.png") a.content) = true := by
  constructor <;> decide

/-- C6 amended: the thumbnail is prepended exactly when neither its local
`thumb_` filename nor its raw URL occurs as a substring of the content after
inline-image processing; the thumbnail bytes join the image map either way.
An equivalent image embedded under an `img_` local name does not suppress the
prepend, because the inline rewrite has removed the URL from the content. -/
theorem thumbnail_prepend_guard_is_substring_check
    (env : FetchEnv) (cfg : FetchCfg) (title turl content : List Char)
    (images : List (List Char × List Nat)) (d : List Nat)
    (hturl : turl.isEmpty = false)
    (hcfg : cfg.downloadImages = true)
    (hdl : downloadImage env cfg turl = some d)
    (hne : d.isEmpty = false) :
    thumbStep env cfg title (some turl) (content, images) =
      ((if !listContains (thumbLocalFilename turl) content && !listContains turl content then
          figureHtml (thumbLocalFilename turl) title ++ content
        else content),
       dictSet images (thumbLocalFilename turl) d) := by
  simp only [thumbStep, hturl, hcfg, Bool.not_true, Bool.or_false, Bool.false_eq_true,
    if_false, hdl, hne]

/-- Witness for the amended C6 theorem: with no equivalent image in the
content the figure is prepended, and the guard is the stated substring
check. -/
theorem thumbnail_prepend_guard_is_substring_check_witness :
    downloadImage c6Env {} c6Url = some [1, 2, 3] ∧
    thumbStep c6Env {} (lc "T") (some c6Url) (lc "<p>no image</p>", []) =
      ((if !listContains (thumbLocalFilename c6Url) (lc "<p>no image</p>") &&
            !listContains c6Url (lc "<p>no image</p>") then
          figureHtml (thumbLocalFilename c6Url) (lc "T") ++ lc "<p>no image</p>"
        else lc "<p>no image</p>"),
       dictSet [] (thumbLocalFilename c6Url) [1, 2, 3]) := by
  refine ⟨by decide, ?_⟩
  exact thumbnail_prepend_guard_is_substring_check c6Env {} (lc "T") c6Url
    (lc "<p>no image</p>") [] [1, 2, 3] (by decide) rfl (by decide) (by decide)

/-! ### C3 — filename sanitization is idempotent -/

/-- Every character of `collapseWsDash s` is either the underscore it
introduces or a non-whitespace non-dash character of `s`. -/
theorem mem_collapseWsDash :
    ∀ (s : List Char), ∀ c ∈ collapseWsDash s, c = '_' ∨ (c ∈ s ∧ isWsDash c = false)
  | [] => by intro c hc; simp [collapseWsDash] at hc
  | [d] => by
    intro c hc
    by_cases h : isWsDash d
    · rw [collapseWsDash, if_pos h] at hc
      exact Or.inl (List.mem_singleton.mp hc)
    · rw [collapseWsDash, if_neg h] at hc
      rw [List.mem_singleton.mp hc]
      exact Or.inr ⟨List.mem_singleton.mpr rfl, Bool.of_not_eq_true h⟩
  | d :: e :: cs => by
    intro c hc
    have ih := mem_collapseWsDash (e :: cs)
    by_cases hd : isWsDash d
    · by_cases he : isWsDash e
      · rw [collapseWsDash, if_pos hd, if_pos he] at hc
        rcases ih c hc with h | ⟨hm, hw⟩
        · exact Or.inl h
        · exact Or.inr ⟨List.mem_cons_of_mem d hm, hw⟩
      · rw [collapseWsDash, if_pos hd, if_neg he] at hc
        rcases List.mem_cons.mp hc with h | h
        · exact Or.inl h
        · rcases ih c h with h | ⟨hm, hw⟩
          · exact Or.inl h
          · exact Or.inr ⟨List.mem_cons_of_mem d hm, hw⟩
    · rw [collapseWsDash, if_neg hd] at hc
      rcases List.mem_cons.mp hc with h | h
      · rw [h]; exact Or.inr ⟨List.mem_cons_self d (e :: cs), Bool.of_not_eq_true hd⟩
      · rcases ih c h with h | ⟨hm, hw⟩
        · exact Or.inl h
        · exact Or.inr ⟨List.mem_cons_of_mem d hm, hw⟩

/-- A string without whitespace or dash characters is a fixed point of
`collapseWsDash`. -/
theorem collapseWsDash_eq_self :
    ∀ (s : List Char), (∀ c ∈ s, isWsDash c = false) → collapseWsDash s = s
  | [] => fun _ => rfl
  | [d] => fun h => by
    rw [collapseWsDash, if_neg ?_]
    simp [h d (List.mem_singleton.mpr rfl)]
  | d :: e :: cs => fun h => by
    rw [collapseWsDash, if_neg ?_]
    · rw [collapseWsDash_eq_self (e :: cs) (fun c hc => h c (List.mem_cons_of_mem d hc))]
    · simp [h d (List.mem_cons_self d (e :: cs))]

/-- Applying `dropWhile` twice is the same as applying it once. -/
theorem dropWhile_idem (p : Char → Bool) (l : List Char) :
    (l.dropWhile p).dropWhile p = l.dropWhile p := by
  induction l with
  | nil => rfl
  | cons c cs ih =>
    by_cases h : p c
    · simp only [List.dropWhile_cons, h, if_true, ih]
    · simp only [List.dropWhile_cons, h, Bool.false_eq_true, if_false]

/-- A prefix of a `dropWhile` fixed point is itself a fixed point. -/
theorem dropWhile_eq_self_of_prefix {p : Char → Bool} {w l : List Char}
    (hl : l.dropWhile p = l) (hw : w <+: l) : w.dropWhile p = w := by
  cases w with
  | nil => rfl
  | cons c w' =>
    obtain ⟨t, ht⟩ := hw
    rw [← ht] at hl
    have hp : p c = false := by
      by_contra hpc
      have hpc' : p c = true := Bool.of_not_eq_false hpc
      rw [List.cons_append, List.dropWhile_cons, if_pos hpc'] at hl
      have := congrArg List.length hl
      have hle : (List.dropWhile p (w' ++ t)).length ≤ (w' ++ t).length :=
        (List.dropWhile_suffix p).sublist.length_le
      simp only [List.length_cons] at this
      omega
    simp only [List.dropWhile_cons, hp, Bool.false_eq_true, if_false]

/-- A string already stripped at both ends is a fixed point of
`stripUnderscores`. -/
theorem stripUnderscores_eq_self {l : List Char}
    (hf : l.dropWhile (fun c => c == '_') = l)
    (hb : l.reverse.dropWhile (fun c => c == '_') = l.reverse) :
    stripUnderscores l = l := by
  unfold stripUnderscores
  rw [hf, hb, List.reverse_reverse]

/-- The output of `stripUnderscores` has no leading underscore run. -/
theorem stripUnderscores_dropWhile (l : List Char) :
    (stripUnderscores l).dropWhile (fun c => c == '_') = stripUnderscores l := by
  unfold stripUnderscores
  apply dropWhile_eq_self_of_prefix (dropWhile_idem _ l)
  have hsuf := List.dropWhile_suffix (l := (l.dropWhile (fun c => c == '_')).reverse)
    (fun c => c == '_')
  have := List.reverse_prefix.mpr hsuf
  rwa [List.reverse_reverse] at this

/-- The output of `stripUnderscores` has no trailing underscore run. -/
theorem stripUnderscores_reverse_dropWhile (l : List Char) :
    (stripUnderscores l).reverse.dropWhile (fun c => c == '_') =
      (stripUnderscores l).reverse := by
  unfold stripUnderscores
  rw [List.reverse_reverse]
  exact dropWhile_idem _ _

/-- Characters of the stripped string come from the original string. -/
theorem stripUnderscores_subset {c : Char} {l : List Char}
    (h : c ∈ stripUnderscores l) : c ∈ l := by
  unfold stripUnderscores at h
  rw [List.mem_reverse] at h
  have h1 := (List.dropWhile_suffix (fun c => c == '_')).subset h
  rw [List.mem_reverse] at h1
  exact (List.dropWhile_suffix (fun c => c == '_')).subset h1

/-- Stripping does not lengthen a string. -/
theorem stripUnderscores_length_le (l : List Char) :
    (stripUnderscores l).length ≤ l.length := by
  unfold stripUnderscores
  rw [List.length_reverse]
  refine le_trans ((List.dropWhile_suffix _).sublist.length_le) ?_
  rw [List.length_reverse]
  exact (List.dropWhile_suffix _).sublist.length_le

/-- Every character of a sanitized filename is legal, is neither whitespace
nor dash, and is ASCII. -/
theorem sanitizeFilename_mem {x : List Char} {c : Char} (h : c ∈ sanitizeFilename x) :
    isIllegalChar c = false ∧ isWsDash c = false ∧ c.toNat ≤ 127 := by
  have h1 : c ∈ (asciiOnly (collapseWsDash (x.filter (fun c => !isIllegalChar c)))).take 100 :=
    stripUnderscores_subset h
  have h2 : c ∈ asciiOnly (collapseWsDash (x.filter (fun c => !isIllegalChar c))) :=
    List.take_subset _ _ h1
  rw [asciiOnly, List.mem_filter] at h2
  obtain ⟨h3, hascii⟩ := h2
  rcases mem_collapseWsDash _ c h3 with h4 | ⟨h5, hws⟩
  · rw [h4]; exact ⟨by decide, by decide, by decide⟩
  · rw [List.mem_filter] at h5
    refine ⟨?_, hws, by simpa using hascii⟩
    have := h5.2
    simpa using this

/-- C3: the filename sanitization of the generator is idempotent — the
second application changes nothing on any input string. -/
theorem sanitizeFilename_idempotent (x : List Char) :
    sanitizeFilename (sanitizeFilename x) = sanitizeFilename x := by
  have hshape : sanitizeFilename x =
      stripUnderscores ((asciiOnly (collapseWsDash
        (x.filter (fun c => !isIllegalChar c)))).take 100) := rfl
  have h1 : (sanitizeFilename x).filter (fun c => !isIllegalChar c) = sanitizeFilename x := by
    rw [List.filter_eq_self]
    intro c hc
    simp [(sanitizeFilename_mem hc).1]
  have h2 : collapseWsDash (sanitizeFilename x) = sanitizeFilename x :=
    collapseWsDash_eq_self _ (fun c hc => (sanitizeFilename_mem hc).2.1)
  have h3 : asciiOnly (sanitizeFilename x) = sanitizeFilename x := by
    rw [asciiOnly, List.filter_eq_self]
    intro c hc
    exact decide_eq_true (sanitizeFilename_mem hc).2.2
  have hlen : (sanitizeFilename x).length ≤ 100 := by
    rw [hshape]
    exact le_trans (stripUnderscores_length_le _) (List.length_take_le _ _)
  have h4 : (sanitizeFilename x).take 100 = sanitizeFilename x :=
    List.take_of_length_le hlen
  have h5 : stripUnderscores (sanitizeFilename x) = sanitizeFilename x := by
    apply stripUnderscores_eq_self
    · rw [hshape]; exact stripUnderscores_dropWhile _
    · rw [hshape]; exact stripUnderscores_reverse_dropWhile _
  show stripUnderscores ((asciiOnly (collapseWsDash
    ((sanitizeFilename x).filter (fun c => !isIllegalChar c)))).take 100) = sanitizeFilename x
  rw [h1, h2, h3, h4, h5]

/-! ### C2 — the registry insert crashes before any row is written -/

/-- C2 (code bug): `generate_feed` passes `mobi_filename`, `mobi_file_path`
and `mobi_file_size` to `RssGeneratedBook(...)` (scheduler.py 132-143), but
the model class declares no such columns (models/rss_feed.py 21-34, and no
migration adds them), so the declarative constructor raises `TypeError` on
every successful generation: `db.add`/`db.commit` are never reached, the
uncommitted delete rolls back, and the registry is unchanged on every path.
The delete-then-reinsert replacement the claim describes never executes. -/
theorem registry_insert_crashes_on_mobi_kwargs
    (env : SchedEnv) (genv : GenEnv) (feed : Feed) (st : List Row)
    (a : Article) (as : List Article)
    (hfetch : env.fetch feed.url (pyOr feed.maxArticles 20) = a :: as)
    (hw : genv.writeFails = false) :
    lc "mobi_filename" ∈ schedulerRowKwargs ∧
    lc "mobi_filename" ∉ rssGeneratedBookColumns ∧
    declarativeInitRaises schedulerRowKwargs rssGeneratedBookColumns = true ∧
    generateFeed env genv feed st = (Except.error (lc "TypeError"), st) ∧
    ∀ (env2 : SchedEnv) (genv2 : GenEnv) (feed2 : Feed) (st2 : List Row),
      (generateFeed env2 genv2 feed2 st2).2 = st2 := by
  have hcrash : declarativeInitRaises schedulerRowKwargs rssGeneratedBookColumns = true := by
    decide
  refine ⟨by decide, by decide, hcrash, ?_, ?_⟩
  · have hpath : (generate genv env.today (a :: as) (feedTitle feed env.today) feed.name
        (lc "vi") none).result =
        some (osPathJoin genv.outputDir (sanitizeFilename (feedTitle feed env.today) ++
          '_' :: fmtYMD env.today ++ lc ".epub")) := by
      simp only [generate, hw, Bool.false_eq_true, if_false]
    simp only [generateFeed, hfetch, hpath, hcrash, if_true]
  · intro env2 genv2 feed2 st2
    rcases hf : env2.fetch feed2.url (pyOr feed2.maxArticles 20) with _ | ⟨b, bs⟩
    · simp only [generateFeed, hf]
    · rcases hr : (generate genv2 env2.today (b :: bs) (feedTitle feed2 env2.today)
          feed2.name (lc "vi") none).result with _ | p
      · simp only [generateFeed, hf, hr]
      · simp only [generateFeed, hf, hr, hcrash, if_true]

/-- Witness for C2 at a concrete feed, date and one-article fetch: the run
raises `TypeError` and the registry stays empty. -/
theorem registry_insert_crashes_on_mobi_kwargs_witness :
    (schedEnvOne ⟨2026, 10, 12⟩).fetch fixFeed.url (pyOr fixFeed.maxArticles 20) =
      [fixArticle] ∧ fixGenv.writeFails = false ∧
    generateFeed (schedEnvOne ⟨2026, 10, 12⟩) fixGenv fixFeed [] =
      (Except.error (lc "TypeError"), []) := by
  refine ⟨rfl, rfl, ?_⟩
  exact (registry_insert_crashes_on_mobi_kwargs (schedEnvOne ⟨2026, 10, 12⟩) fixGenv
    fixFeed [] fixArticle [] rfl rfl).2.2.2.1

end RssEpub
